import Mathlib

/-!
Shallow embedding of the WhatsApp retailer-bot core of the Retailer_Bot
repository: the free-text message parser (`app/whatsapp/message_parser.py`),
the session / item / sale data model (`app/models/*.py`), and the two bot
dispatch engines (`app/whatsapp/invoice_bot.py`, `inventory_bot.py`).
Python machine types are modelled as: `int` by `Int`, `float` by `ℚ`
(the decimal-notation fragment used by the bots), datetimes by second
counts (`Nat`), dictionaries by association lists, and database tables by
insertion-ordered lists (SQLAlchemy `first()` on an unordered query is
read as leftmost match in insertion order).
-/

namespace RetailerBot

/-- Python `str.strip()`: drop whitespace at both ends. -/
def pyStrip (s : String) : String :=
  ⟨((s.toList.dropWhile Char.isWhitespace).reverse.dropWhile Char.isWhitespace).reverse⟩

/-- Python `str.lower()` (ASCII). -/
def pyLower (s : String) : String :=
  ⟨s.toList.map Char.toLower⟩

/-- Worker for `splitWs`: current word (reversed) and remaining input. -/
def splitWsAux : List Char → List Char → List String
  | [], cur => if cur.isEmpty then [] else [⟨cur.reverse⟩]
  | c :: cs, cur =>
      if c.isWhitespace then
        if cur.isEmpty then splitWsAux cs [] else ⟨cur.reverse⟩ :: splitWsAux cs []
      else splitWsAux cs (c :: cur)

/-- Run of whitespace splitting of Python `str.split()` (no argument):
split on whitespace runs, no empty fragments. -/
def splitWs (s : String) : List String :=
  splitWsAux s.toList []

/-- Worker for `splitOnChar`. -/
def splitOnCharAux (sep : Char) : List Char → List Char → List (List Char)
  | [], cur => [cur.reverse]
  | c :: cs, cur =>
      if c == sep then cur.reverse :: splitOnCharAux sep cs []
      else splitOnCharAux sep cs (c :: cur)

/-- Python `str.split(sep)` for a one-character separator: empty
segments are kept. -/
def splitOnChar (sep : Char) (s : String) : List String :=
  (splitOnCharAux sep s.toList []).map (fun cs => ⟨cs⟩)

/-- Python `str.startswith(pre)`. -/
def strStartsWith (pre s : String) : Bool :=
  pre.toList.isPrefixOf s.toList

/-- Concatenation with single spaces, Python `" ".join(xs)`. -/
def joinSpace : List String → String
  | [] => ""
  | [x] => x
  | x :: y :: xs => x ++ " " ++ joinSpace (y :: xs)

/-- Digit run to number, for Python `int()` / `float()` parsing. -/
def digitsToNat (cs : List Char) : Nat :=
  cs.foldl (fun a c => a * 10 + (c.toNat - 48)) 0

/-- True when the list is a nonempty run of ASCII digits. -/
def allDigits (cs : List Char) : Bool :=
  !cs.isEmpty && cs.all Char.isDigit

/-- Python `int(s)`: optional surrounding whitespace, optional sign, a
nonempty digit run.  Returns `none` where CPython raises `ValueError`. -/
def pyParseInt (s : String) : Option Int :=
  match (pyStrip s).toList with
  | '-' :: rest => if allDigits rest then some (-(digitsToNat rest : Int)) else none
  | '+' :: rest => if allDigits rest then some (digitsToNat rest : Int) else none
  | cs => if allDigits cs then some (digitsToNat cs : Int) else none

/-- Value of `intpart.fracpart` as a rational. -/
def decimalToRat (intPart fracPart : List Char) : ℚ :=
  (digitsToNat intPart : ℚ) + (digitsToNat fracPart : ℚ) / ((10 : ℚ) ^ fracPart.length)

/-- Python `float(s)` on the plain decimal notation the bots receive:
optional sign, digits with an optional single point, at least one digit
overall (exponent and inf/nan spellings are outside the bots' grammar and
are not modelled).  Returns `none` where CPython raises `ValueError`. -/
def pyParseFloatCore (cs : List Char) : Option ℚ :=
  match splitOnCharAux '.' cs [] with
  | [ipart] => if allDigits ipart then some (digitsToNat ipart : ℚ) else none
  | [ipart, fpart] =>
      if (allDigits ipart || ipart.isEmpty) &&
         (allDigits fpart || fpart.isEmpty) &&
         !(ipart.isEmpty && fpart.isEmpty) then
        some (decimalToRat ipart fpart)
      else none
  | _ => none

/-- Python `float(s)` (decimal-notation fragment), with optional sign. -/
def pyParseFloat (s : String) : Option ℚ :=
  match (pyStrip s).toList with
  | '-' :: rest => (pyParseFloatCore rest).map (fun q => -q)
  | '+' :: rest => pyParseFloatCore rest
  | cs => pyParseFloatCore cs

/-- Python `str.title()`: a letter that follows a letter is lower-cased,
a letter that follows a non-letter (or starts the string) is upper-cased,
non-letters pass through (ASCII). -/
def pyTitleAux : Bool → List Char → List Char
  | _, [] => []
  | prevAlpha, c :: cs =>
      if c.isAlpha then
        (if prevAlpha then c.toLower else c.toUpper) :: pyTitleAux true cs
      else
        c :: pyTitleAux false cs

/-- Python `str.title()` (ASCII letters). -/
def pyTitle (s : String) : String :=
  ⟨pyTitleAux false s.toList⟩

/-- One step of the SQL LIKE matcher, on fuel: `%` in the pattern
matches any run of characters (including none), `_` matches exactly one
character, every other pattern character matches itself literally (both
sides are lower-cased by the caller, giving ILIKE its case
insensitivity).  Each recursive call shortens pattern or text, so
`pat.length + hay.length + 1` fuel always suffices and the out-of-fuel
answer is never reached. -/
def likeMatchFuel : Nat → List Char → List Char → Bool
  | 0, _, _ => false
  | _ + 1, [], hay => hay.isEmpty
  | f + 1, c :: ps, hay =>
      if c == '%' then
        likeMatchFuel f ps hay ||
          (match hay with
           | [] => false
           | _ :: t => likeMatchFuel f (c :: ps) t)
      else
        match hay with
        | [] => false
        | h :: t => (c == '_' || c == h) && likeMatchFuel f ps t

/-- SQL LIKE on whole strings (adequate fuel supplied). -/
def sqlLikeMatch (pat hay : List Char) : Bool :=
  likeMatchFuel (pat.length + hay.length + 1) pat hay

/-- `Item.name.ilike(f"%{pat}%")`: the user-supplied text is embedded
raw between two `%` wildcards with no ESCAPE clause, so `_` and `%`
inside it keep their LIKE wildcard meaning; matching is
case-insensitive. -/
def ilikeContains (hay pat : String) : Bool :=
  sqlLikeMatch ('%' :: (pyLower pat).toList ++ ['%']) (pyLower hay).toList

/-- Command discriminants of `message_parser.CommandType`. -/
inductive CommandType where
  | addItem | updateStock | viewItems | checkStock | lowStock | help
  | invoiceRequest | retailerSuccess | retailerFail
  | login | logout | unknown
  deriving Repr, DecidableEq, BEq

/-- The parser result dictionary: `command` plus the optional entries the
Python code stores under `error`, `item_name`, `quantity`, `price`,
`user_id`, `password`, `customer_name`. -/
structure ParsedMsg where
  command : CommandType
  error : Option String := none
  itemName : Option String := none
  quantity : Option Int := none
  price : Option ℚ := none
  userId : Option String := none
  password : Option String := none
  customerName : Option String := none
  deriving Repr, DecidableEq

/-- CPython text of `ValueError` from `int()`. -/
def intErrText (s : String) : String :=
  "invalid literal for int() with base 10: \x27" ++ s ++ "\x27"

/-- CPython text of `ValueError` from `float()`. -/
def floatErrText (s : String) : String :=
  "could not convert string to float: \x27" ++ s ++ "\x27"

/-- The `self.inventory_commands` lookup table. -/
def inventoryCommandOf (w : String) : CommandType :=
  if w == "add" then .addItem
  else if w == "update" then .updateStock
  else if w == "view" then .viewItems
  else if w == "stock" then .checkStock
  else if w == "lowstock" then .lowStock
  else if w == "help" then .help
  else if w == "login" then .login
  else if w == "logout" then .logout
  else .unknown

/-- `MessageParser.parse_inventory_command`: the whole message is trimmed
and lower-cased before tokenization, then the leading word selects the
command and the remaining tokens are interpreted per command. -/
def parseInventoryCommand (message : String) : ParsedMsg :=
  let m := pyLower (pyStrip message)
  let parts := splitWs m
  match parts with
  | [] => { command := .unknown, error := some "Empty message" }
  | w :: _ =>
    let ct := inventoryCommandOf w
    match ct with
    | .addItem =>
        match (parts.drop 1).reverse with
        | priceStr :: qtyStr :: n0 :: revRest =>
            let itemName := joinSpace ((n0 :: revRest).reverse)
            match pyParseInt qtyStr with
            | none => { command := ct,
                        error := some ("Invalid command format: " ++ intErrText qtyStr) }
            | some q =>
                match pyParseFloat priceStr with
                | none => { command := ct,
                            error := some ("Invalid command format: " ++ floatErrText priceStr) }
                | some pr => { command := ct, itemName := some itemName,
                               quantity := some q, price := some pr }
        | _ => { command := ct, error := some "Invalid format. Use: add item_name quantity price" }
    | .updateStock =>
        match (parts.drop 1).reverse with
        | qtyStr :: n0 :: revRest =>
            let itemName := joinSpace ((n0 :: revRest).reverse)
            match pyParseInt qtyStr with
            | none => { command := ct,
                        error := some ("Invalid command format: " ++ intErrText qtyStr) }
            | some q => { command := ct, itemName := some itemName, quantity := some q }
        | _ => { command := ct, error := some "Invalid format. Use: update item_name quantity" }
    | .checkStock =>
        match parts.drop 1 with
        | [] => { command := ct, error := some "Invalid format. Use: stock item_name" }
        | args => { command := ct, itemName := some (joinSpace args) }
    | .login =>
        match parts with
        | [_, uid, pw] => { command := ct, userId := some uid, password := some pw }
        | _ => { command := ct, error := some "Invalid format. Use: login user_id password" }
    | .unknown =>
        { command := ct, error := some "Unknown command. Type \x27help\x27 for available commands." }
    | _ => { command := ct }

/-- The `self.invoice_responses` lookup table. -/
def invoiceResponseOf (w : String) : Option CommandType :=
  if w == "success" then some .retailerSuccess
  else if w == "fail" then some .retailerFail
  else if w == "failed" then some .retailerFail
  else none

/-- `MessageParser.parse_invoice_message`: bare keywords short-circuit,
then `login`, `logout`, `help`, then the colon-delimited
`customer : item : quantity` request whose name segments are
title-cased and whose quantity must be a positive integer. -/
def parseInvoiceMessage (message : String) : ParsedMsg :=
  let m := pyStrip message
  let ml := pyLower m
  match invoiceResponseOf ml with
  | some ct => { command := ct }
  | none =>
    if strStartsWith "login " ml then
      match splitWs m with
      | [_, uid, pw] => { command := .login, userId := some uid, password := some pw }
      | _ => { command := .unknown, error := some "Invalid format. Use: login user_id password" }
    else if ml == "logout" then { command := .logout }
    else if ml == "help" then { command := .help }
    else if m.toList.contains ':' then
      match (splitOnChar ':' m).map pyStrip with
      | [customer, itemName, qtyStr] =>
          match pyParseInt qtyStr with
          | none => { command := .unknown,
                      error := some ("Invalid quantity: " ++ intErrText qtyStr) }
          | some q =>
              if q ≤ 0 then
                { command := .unknown, error := some "Invalid quantity: Quantity must be positive" }
              else
                { command := .invoiceRequest,
                  customerName := some (pyTitle customer),
                  itemName := some (pyTitle itemName),
                  quantity := some q }
      | _ => { command := .unknown,
               error := some "Invalid format. Use: customer_name: item_name: quantity" }
    else
      { command := .unknown,
        error := some "Invalid format. Use: customer_name: item_name: quantity" }

/-! ## Data model (`app/models`) -/

/-- `models.session.BotType`. -/
inductive BotType where
  | inventory | invoice
  deriving Repr, DecidableEq, BEq

/-- `models.sale.SaleStatus`. -/
inductive SaleStatus where
  | pending | success | failed | cancelled
  deriving Repr, DecidableEq, BEq

/-- `models.user.User` (the fields the bots read). -/
structure User where
  id : Nat
  name : String
  whatsappNumber : String
  passwordHash : String
  deriving Repr, DecidableEq

/-- `models.item.Item` (the fields the bots read).  `quantity` is `Int`:
the column is a plain INTEGER with no non-negativity constraint. -/
structure Item where
  id : Nat
  name : String
  quantity : Int
  price : ℚ
  isActive : Bool
  deriving Repr, DecidableEq

/-- One element of the `items_sold_json` snapshot list of a sale. -/
structure SaleLine where
  itemId : Nat
  itemName : String
  quantity : Int
  unitPrice : ℚ
  totalPrice : ℚ
  deriving Repr, DecidableEq

/-- `models.sale.Sale` (the fields the bots read); the serialized
`items_sold_json` is modelled as its parsed list. -/
structure Sale where
  id : Nat
  customerName : String
  itemsSold : List SaleLine
  totalAmount : ℚ
  status : SaleStatus
  userId : Nat
  deriving Repr, DecidableEq

/-- `models.session.WhatsAppSession`.  The `session_token` column is
declared NOT NULL in the model; the bots never populate it, so the field
is `Option String` holding the attribute value at object-construction
time (`none` when the constructor was not given a token). -/
structure WhatsAppSession where
  id : Nat
  userId : Nat
  whatsappNumber : String
  sessionToken : Option String
  botType : BotType
  isActive : Bool
  expiresAt : Nat
  deriving Repr, DecidableEq

/-- The whole observable state a bot handler touches: the four tables in
insertion order, the in-memory `pending_sales` dictionary of the invoice
bot, and the autoincrement counters. -/
structure BotState where
  users : List User
  items : List Item
  sales : List Sale
  sessions : List WhatsAppSession
  pendingSales : List (String × Nat)
  nextSaleId : Nat
  nextSessionId : Nat
  nextItemId : Nat
  deriving Repr, DecidableEq

/-- Replace the first element satisfying `p` (SQLAlchemy `first()` row
mutated in place). -/
def updateFirst (p : α → Bool) (f : α → α) : List α → List α
  | [] => []
  | x :: xs => if p x then f x :: xs else x :: updateFirst p f xs

/-- `self.pending_sales.get(phone_number)`. -/
def lookupPending (m : List (String × Nat)) (phone : String) : Option Nat :=
  (m.find? (fun e => e.1 == phone)).map Prod.snd

/-- `self.pending_sales[phone_number] = sale_id` (overwrites). -/
def bindPending (m : List (String × Nat)) (phone : String) (sid : Nat) :
    List (String × Nat) :=
  (phone, sid) :: m.filter (fun e => e.1 ≠ phone)

/-- `del self.pending_sales[phone_number]` (each call site has checked
membership, so total removal is faithful). -/
def erasePending (m : List (String × Nat)) (phone : String) : List (String × Nat) :=
  m.filter (fun e => e.1 ≠ phone)

/-! ## Outbound message texts -/

/-- Python `format(x, ".2f")` on the bots' money values: two-decimal
rendering (half rounded away from zero on the rational model). -/
def format2f (x : ℚ) : String :=
  let n : Int := round (x * 100)
  let sign := if n < 0 then "-" else ""
  let a := n.natAbs
  sign ++ toString (a / 100) ++ "." ++ (if a % 100 < 10 then "0" else "") ++ toString (a % 100)

/-- `f"❌ {error_msg}"`. -/
def errReply (e : String) : String := "❌ " ++ e

/-- The fixed prompt sent when the auth gate finds no session. -/
def loginPromptMsg : String := "🔒 Please login first using: login user_id password"

/-- Reply for failed credential verification. -/
def invalidCredsMsg : String :=
  "❌ Invalid credentials. Please check your user ID and password."

/-- Login success reply of each bot. -/
def welcomeMsg (bt : BotType) (name : String) : String :=
  "✅ Welcome " ++ name ++ "! You are now logged in to the " ++
  (match bt with
   | .invoice => "Invoice"
   | .inventory => "Inventory") ++
  " Bot.\nType \x27help\x27 for available commands."

/-- Invoice-bot logout reply. -/
def logoutInvoiceMsg : String := "👋 You have been logged out from the Invoice Bot."

/-- Invoice-bot reply when the requested item resolves to no row. -/
def itemNotFoundMsg (nm : String) : String :=
  "❌ Item \x27" ++ nm ++ "\x27 not found in inventory."

/-- Invoice-bot reply when requested quantity exceeds current stock. -/
def insufficientStockMsg (nm : String) (avail req : Int) : String :=
  "❌ Insufficient stock for \x27" ++ nm ++ "\x27.\nAvailable: " ++ toString avail ++
  "\nRequested: " ++ toString req

/-- Reply when a success/fail reply arrives with no correlator binding. -/
def noPendingMsg : String := "❌ No pending invoice found. Please create an invoice first."

/-- Combined reply for a bound sale that is missing, foreign-owned, or
no longer pending. -/
def invalidSaleMsg : String := "❌ Invalid or already processed sale."

/-- The catch-all reply of the outer exception handler. -/
def genericErrorMsg : String := "❌ An error occurred. Please try again later."

/-- The pending-invoice summary sent after a sale is created. -/
def invoiceGeneratedMsg (saleId : Nat) (customer : String) (item : Item)
    (qty : Int) (total : ℚ) : String :=
  "🧾 *INVOICE GENERATED*\n\n📋 *Sale ID:* " ++ toString saleId ++
  "\n👤 *Customer:* " ++ customer ++
  "\n📦 *Item:* " ++ item.name ++
  "\n🔢 *Quantity:* " ++ toString qty ++
  "\n💰 *Unit Price:* ₹" ++ format2f item.price ++
  "\n💵 *Total Amount:* ₹" ++ format2f total ++
  "\n\n⏳ *Status:* Pending Confirmation\n\nPlease reply with:\n• `success` - to confirm sale and update stock\n• `fail` - to cancel sale"

/-- Reply after a confirmed sale. -/
def saleConfirmedMsg (saleId : Nat) (customer : String) (total : ℚ) : String :=
  "✅ *SALE CONFIRMED*\n\n📋 Sale ID: " ++ toString saleId ++
  "\n👤 Customer: " ++ customer ++
  "\n💵 Amount: ₹" ++ format2f total ++
  "\n\n📦 Stock has been updated automatically."

/-- Reply after a rejected sale. -/
def saleCancelledMsg (saleId : Nat) (customer : String) (total : ℚ) : String :=
  "❌ *SALE CANCELLED*\n\n📋 Sale ID: " ++ toString saleId ++
  "\n👤 Customer: " ++ customer ++
  "\n💵 Amount: ₹" ++ format2f total ++
  "\n\n📦 No stock changes made."

/-- `message_parser.generate_help_message("invoice")`. -/
def invoiceHelpMsg : String :=
  "🧾 *Invoice Bot Commands:*\n\n*Create Invoice:*\n• `customer_name: item_name: quantity` - Generate invoice\n\n*Retailer Response:*\n• `success` - Confirm sale (stock will be deducted)\n• `fail` - Reject sale (no stock change)\n\n*Session:*\n• `login user_id password` - Login to bot\n• `logout` - Logout from bot\n\n*Example:*\n`Raghav: Natraj Pencils: 2`\nThen respond with `success` or `fail`"

/-! ## Handlers (`invoice_bot.py`, `inventory_bot.py`) -/

/-- Result of one inner handler: the new state and the text sent back. -/
structure HandlerResult where
  state : BotState
  reply : String
  deriving Repr, DecidableEq

/-- Result of `handle_message`: the new state and the outbound text, if
any was sent. -/
structure DispatchResult where
  state : BotState
  reply : Option String
  deriving Repr, DecidableEq

/-- `_get_active_session`: first session row for this phone number and
persona whose `is_active` flag is set.  The query has no condition on
`expires_at`. -/
def getActiveSession (sessions : List WhatsAppSession) (bt : BotType)
    (phone : String) : Option WhatsAppSession :=
  sessions.find? (fun s => s.whatsappNumber == phone && s.botType == bt && s.isActive)

/-- SQLAlchemy comparison of the INTEGER `User.id` column with the
textual user-id token (numeric text converts under integer affinity). -/
def userIdTokenMatches (uid : String) (u : User) : Bool :=
  match pyParseInt uid with
  | some n => decide (0 ≤ n) && u.id == n.toNat
  | none => false

/-- `_handle_login` (identical in both bots up to the persona constant):
find the first user matching the supplied id or the sender's phone
number, verify the password, and on success deactivate every session row
for (phone, persona) and insert one fresh active session expiring 24
hours (86400 s) from now.  The `WhatsAppSession` constructor is called
without a `session_token`, so the new row carries `none`.  The password
primitive `verify_password` (bcrypt, outside the core) is a parameter. -/
def handleLogin (st : BotState) (now : Nat) (verify : String → String → Bool)
    (bt : BotType) (phone : String) (p : ParsedMsg) : HandlerResult :=
  match p.error with
  | some e => ⟨st, errReply e⟩
  | none =>
    let uid := p.userId.getD ""
    let pw := p.password.getD ""
    match st.users.find? (fun u => userIdTokenMatches uid u || u.whatsappNumber == phone) with
    | none => ⟨st, invalidCredsMsg⟩
    | some user =>
      if !(verify pw user.passwordHash) then ⟨st, invalidCredsMsg⟩
      else
        let deactivated := st.sessions.map (fun s =>
          if s.whatsappNumber == phone && s.botType == bt then
            { s with isActive := false }
          else s)
        let newSession : WhatsAppSession :=
          { id := st.nextSessionId, userId := user.id, whatsappNumber := phone,
            sessionToken := none, botType := bt, isActive := true,
            expiresAt := now + 86400 }
        ⟨{ st with
             sessions := deactivated ++ [newSession],
             nextSessionId := st.nextSessionId + 1 },
         welcomeMsg bt user.name⟩

/-- Invoice-bot `_handle_logout`: deactivate the gated session row and
drop the sender's `pending_sales` binding if present. -/
def handleInvoiceLogout (st : BotState) (phone : String)
    (sess : WhatsAppSession) : HandlerResult :=
  let sessions := updateFirst (fun s => s.id == sess.id)
    (fun s => { s with isActive := false }) st.sessions
  ⟨{ st with sessions := sessions, pendingSales := erasePending st.pendingSales phone },
   logoutInvoiceMsg⟩

/-- The item lookup shared by `_handle_invoice_request`,
`_handle_update_stock` and `_handle_check_stock`:
`Item.name.ilike(f"%{item_name}%")` among active rows, first match. -/
def findItem (items : List Item) (nm : String) : Option Item :=
  items.find? (fun i => ilikeContains i.name nm && i.isActive)

/-- `_handle_invoice_request`: resolve the item, reject on missing item
or insufficient stock, otherwise persist a pending sale with a one-line
snapshot priced from the current catalog and overwrite the correlator
binding for this phone number. -/
def handleInvoiceRequest (st : BotState) (user : User) (phone : String)
    (p : ParsedMsg) : HandlerResult :=
  match p.error with
  | some e => ⟨st, errReply e⟩
  | none =>
    let customer := p.customerName.getD ""
    let itemName := p.itemName.getD ""
    let qty := p.quantity.getD 0
    match findItem st.items itemName with
    | none => ⟨st, itemNotFoundMsg itemName⟩
    | some item =>
      if item.quantity < qty then
        ⟨st, insufficientStockMsg item.name item.quantity qty⟩
      else
        let total := item.price * (qty : ℚ)
        let line : SaleLine :=
          { itemId := item.id, itemName := item.name, quantity := qty,
            unitPrice := item.price, totalPrice := total }
        let sale : Sale :=
          { id := st.nextSaleId, customerName := customer, itemsSold := [line],
            totalAmount := total, status := .pending, userId := user.id }
        ⟨{ st with
             sales := st.sales ++ [sale],
             nextSaleId := st.nextSaleId + 1,
             pendingSales := bindPending st.pendingSales phone sale.id },
         invoiceGeneratedMsg sale.id customer item qty total⟩

/-- `Sale` lookup of the success/fail handlers:
`Sale.id == sale_id, Sale.user_id == user.id`, first match. -/
def findSaleOwned (sales : List Sale) (sid uid : Nat) : Option Sale :=
  sales.find? (fun s => s.id == sid && s.userId == uid)

/-- The stock loop of `_handle_retailer_success`: for each snapshot line,
fetch the item by id (no activity filter) and subtract the snapshot
quantity — a plain `-=` with no clamping; a missing item is skipped. -/
def decrementLines (items : List Item) (lines : List SaleLine) : List Item :=
  lines.foldl (fun acc l =>
    updateFirst (fun i => i.id == l.itemId)
      (fun i => { i with quantity := i.quantity - l.quantity }) acc) items

/-- `_handle_retailer_success`: resolve the correlator binding, fetch the
bound sale owned by the replying user, require status pending, then mark
the sale successful, run the unclamped stock decrements, and drop the
binding.  Missing binding, missing/foreign sale and non-pending sale
leave the state unchanged (the binding stays). -/
def handleRetailerSuccess (st : BotState) (user : User) (phone : String) :
    HandlerResult :=
  match lookupPending st.pendingSales phone with
  | none => ⟨st, noPendingMsg⟩
  | some sid =>
    match findSaleOwned st.sales sid user.id with
    | none => ⟨st, invalidSaleMsg⟩
    | some sale =>
      if sale.status ≠ .pending then ⟨st, invalidSaleMsg⟩
      else
        let sales := updateFirst (fun s => s.id == sid && s.userId == user.id)
          (fun s => { s with status := .success }) st.sales
        let items := decrementLines st.items sale.itemsSold
        ⟨{ st with
             sales := sales,
             items := items,
             pendingSales := erasePending st.pendingSales phone },
         saleConfirmedMsg sale.id sale.customerName sale.totalAmount⟩

/-- `_handle_retailer_fail`: same lookups as the success handler, but a
valid pending sale is only marked failed — the items table is untouched —
and the binding is dropped. -/
def handleRetailerFail (st : BotState) (user : User) (phone : String) :
    HandlerResult :=
  match lookupPending st.pendingSales phone with
  | none => ⟨st, noPendingMsg⟩
  | some sid =>
    match findSaleOwned st.sales sid user.id with
    | none => ⟨st, invalidSaleMsg⟩
    | some sale =>
      if sale.status ≠ .pending then ⟨st, invalidSaleMsg⟩
      else
        let sales := updateFirst (fun s => s.id == sid && s.userId == user.id)
          (fun s => { s with status := .failed }) st.sales
        ⟨{ st with
             sales := sales,
             pendingSales := erasePending st.pendingSales phone },
         saleCancelledMsg sale.id sale.customerName sale.totalAmount⟩

/-- Wrap an inner handler result for `handle_message`. -/
def liftH (r : HandlerResult) : DispatchResult := ⟨r.state, some r.reply⟩

/-- `InvoiceBot.handle_message`: guard on nonempty sender and text, parse,
then — for every command other than `login` — consult the session store
first and stop with the login prompt when no active-flagged session row
exists; only then branch to the command's handler.  A session row whose
user row is missing is modelled as the outer generic-error path. -/
def handleInvoiceMessage (st : BotState) (now : Nat)
    (verify : String → String → Bool) (phone text : String) : DispatchResult :=
  if phone == "" || text == "" then ⟨st, none⟩
  else
    let p := parseInvoiceMessage text
    if p.command == .login then liftH (handleLogin st now verify .invoice phone p)
    else
      match getActiveSession st.sessions .invoice phone with
      | none => ⟨st, some loginPromptMsg⟩
      | some sess =>
        match p.command with
        | .logout => liftH (handleInvoiceLogout st phone sess)
        | .help => ⟨st, some invoiceHelpMsg⟩
        | .invoiceRequest =>
            match st.users.find? (fun u => u.id == sess.userId) with
            | none => ⟨st, some genericErrorMsg⟩
            | some user => liftH (handleInvoiceRequest st user phone p)
        | .retailerSuccess =>
            match st.users.find? (fun u => u.id == sess.userId) with
            | none => ⟨st, some genericErrorMsg⟩
            | some user => liftH (handleRetailerSuccess st user phone)
        | .retailerFail =>
            match st.users.find? (fun u => u.id == sess.userId) with
            | none => ⟨st, some genericErrorMsg⟩
            | some user => liftH (handleRetailerFail st user phone)
        | _ =>
            ⟨st, some (errReply (p.error.getD
              "Unknown command. Type \x27help\x27 for available commands."))⟩

/-- Concrete stand-in for the bcrypt `verify_password` boundary:
a hash is the password prefixed with `#`. -/
def verifyEq : String → String → Bool := fun pw h => h == "#" ++ pw

/-- A registered user on phone number `pa`. -/
def userAsha : User := ⟨1, "Asha", "pa", "#pw"⟩

/-- A second registered user on phone number `pb`. -/
def userBina : User := ⟨2, "Bina", "pb", "#pw2"⟩

/-- An active catalog item with three units in stock. -/
def itemPencils : Item := ⟨1, "Pencils", 3, 5, true⟩

/-- Snapshot line selling three units of `itemPencils`. -/
def linePencils3 : SaleLine := ⟨1, "Pencils", 3, 5, 15⟩

/-- A pending sale of three pencils owned by user 1. -/
def saleA : Sale := ⟨1, "Cust A", [linePencils3], 15, .pending, 1⟩

/-- A pending sale of three pencils owned by user 2. -/
def saleB : Sale := ⟨2, "Cust B", [linePencils3], 15, .pending, 2⟩

/-- A sale identical to `saleA` but already resolved successful. -/
def saleResolved : Sale := ⟨1, "Cust A", [linePencils3], 15, .success, 1⟩

/-- State with three pencils in stock and two pending three-pencil sales
bound to two different phone numbers (each sale was created while stock
sufficed for it alone). -/
def stTwoPending : BotState :=
  ⟨[userAsha, userBina], [itemPencils], [saleA, saleB], [],
   [("pa", 1), ("pb", 2)], 3, 1, 2⟩

/-- An invoice-bot session that is still flagged active but whose expiry
timestamp is in the past. -/
def expiredSession : WhatsAppSession := ⟨1, 1, "pa", none, .invoice, true, 0⟩

/-- State holding only the expired-but-active session. -/
def stExpired : BotState := ⟨[userAsha], [], [], [expiredSession], [], 1, 2, 1⟩

/-- State where phone `pb` (user 2) holds a binding to sale 1, but sale 1
is owned by user 1 and still pending. -/
def stForeignPending : BotState :=
  ⟨[userAsha, userBina], [itemPencils], [saleA], [], [("pb", 1)], 2, 1, 2⟩

/-- State where phone `pa` (user 1) holds a binding to its own pending
sale 1. -/
def stOwnedPending : BotState :=
  ⟨[userAsha], [itemPencils], [saleA], [], [("pa", 1)], 2, 1, 2⟩

/-- State where phone `pa` holds a binding to sale 1, which is already
resolved (status success). -/
def stStaleBinding : BotState :=
  ⟨[userAsha], [itemPencils], [saleResolved], [], [("pa", 1)], 2, 1, 2⟩

/-- A prior active invoice session of another user on phone `pa`. -/
def priorSession : WhatsAppSession := ⟨7, 2, "pa", none, .invoice, true, 50⟩

/-- Login fixture: user 1 registered with hash `#pw`, one prior active
session on the same phone. -/
def stLoginFixture : BotState := ⟨[userAsha], [], [], [priorSession], [], 1, 8, 1⟩

/-- The session row `_handle_login` inserts for the login fixture at time
100: fresh id, user 1, no token, active, expiry 100 + 86400. -/
def newSessionFixture : WhatsAppSession := ⟨8, 1, "pa", none, .invoice, true, 86500⟩

/-! ## Helper lemmas -/

/-- `find?` after `updateFirst` with the same predicate: the first hit is
the updated element, provided the update preserves the predicate. -/
theorem find?_updateFirst (p : α → Bool) (f : α → α) (l : List α) (x : α)
    (h : l.find? p = some x) (hf : p (f x) = true) :
    (updateFirst p f l).find? p = some (f x) := by
  induction l with
  | nil => simp [List.find?] at h
  | cons a t ih =>
      by_cases ha : p a
      · rw [List.find?_cons_of_pos t ha] at h
        cases h
        simp [updateFirst, ha, List.find?_cons_of_pos _ hf]
      · rw [List.find?_cons_of_neg t ha] at h
        simp [updateFirst, ha, List.find?_cons_of_neg _ ha, ih h]

/-- After `erasePending`, the phone number resolves to nothing. -/
theorem lookupPending_erase (m : List (String × Nat)) (phone : String) :
    lookupPending (erasePending m phone) phone = none := by
  unfold lookupPending erasePending
  rw [List.find?_eq_none.mpr]
  · rfl
  · intro e he
    have h2 := (List.mem_filter.mp he).2
    simp only [decide_eq_true_eq] at h2
    simp only [beq_iff_eq]
    exact h2

/-- A string followed by a trailing `%` wildcard matches itself: the
wildcard absorbs the empty tail, a `%` in the text is matched by the same
`%` read as a one-character run, and `_` or a literal matches its own
copy.  Stated for every adequate fuel value. -/
theorem likeMatchFuel_append_self (s : List Char) :
    ∀ f, 2 * s.length + 2 ≤ f → likeMatchFuel f (s ++ ['%']) s = true := by
  induction s with
  | nil =>
      intro f hf
      cases f with
      | zero => omega
      | succ f1 =>
          cases f1 with
          | zero => omega
          | succ f2 => simp [likeMatchFuel]
  | cons c t ih =>
      intro f hf
      cases f with
      | zero => omega
      | succ f1 =>
          by_cases hc : c = '%'
          · subst hc
            have h2 : likeMatchFuel f1 ('%' :: (t ++ ['%'])) t = true := by
              cases f1 with
              | zero => omega
              | succ f2 =>
                  have h3 : likeMatchFuel f2 (t ++ ['%']) t = true :=
                    ih f2 (by simp at hf; omega)
                  simp [likeMatchFuel, h3]
            simp [likeMatchFuel, h2]
          · have h3 : likeMatchFuel f1 (t ++ ['%']) t = true :=
              ih f1 (by simp at hf; omega)
            simp [likeMatchFuel, hc, h3]

/-- A pattern that wraps a string between two `%` wildcards matches that
string. -/
theorem sqlLikeMatch_wrap_self (l : List Char) :
    sqlLikeMatch ('%' :: l ++ ['%']) l = true := by
  unfold sqlLikeMatch
  have hlen : ('%' :: l ++ ['%']).length = l.length + 2 := by simp
  rw [hlen]
  have h1 : likeMatchFuel (l.length + 2 + l.length) (l ++ ['%']) l = true :=
    likeMatchFuel_append_self l _ (by omega)
  simp [likeMatchFuel, h1]

/-- Two strings that agree after lower-casing stand in the
`ILIKE '%pat%'` relation: an exact case-insensitive name match always
resolves. -/
theorem ilikeContains_of_eq (hay pat : String) (h : pyLower hay = pyLower pat) :
    ilikeContains hay pat = true := by
  unfold ilikeContains
  rw [h]
  exact sqlLikeMatch_wrap_self _

/-- The single digit 5. -/
theorem digitsToNat_five : digitsToNat ['5'] = 5 := by decide

/-- The single digit 0. -/
theorem digitsToNat_zero : digitsToNat ['0'] = 0 := by decide

/-- The decimal text 5.0 denotes the rational 5. -/
theorem decimalToRat_five_zero : decimalToRat ['5'] ['0'] = 5 := by
  unfold decimalToRat
  rw [digitsToNat_five, digitsToNat_zero]
  norm_num

/-! ## Claim theorems -/

/-- C1: the claim says every snapshot-line decrement in the WhatsApp
confirm handler is clamped at zero so item quantity stays nonnegative.
Evaluating the handler at the failing input refutes this: from a state
with three pencils in stock and two pending three-pencil sales (each
validated against the full stock when created), confirming both sales by
two `success` replies leaves the item quantity at −3 — the subtraction in
`_handle_retailer_success` is unclamped, unlike the sibling HTTP endpoint
`update_sale_status`, which guards the same decrement with
`if item.quantity < 0: item.quantity = 0`. -/
theorem confirm_decrement_goes_negative :
    itemPencils.quantity = 3 ∧
    saleA.status = SaleStatus.pending ∧ saleB.status = SaleStatus.pending ∧
    (handleRetailerSuccess (handleRetailerSuccess stTwoPending userAsha "pa").state
        userBina "pb").state.items = [{ itemPencils with quantity := -3 }] ∧
    ({ itemPencils with quantity := -3 } : Item).quantity < 0 := by decide

set_option maxRecDepth 10000 in
/-- C2: the claim says the auth-gate session lookup returns a session
only if it is active and not past its expiry, treating an
expired-but-still-active session as absent.  Evaluating the code at the
failing input refutes this: `_get_active_session` filters only on phone,
persona and the active flag — a session with `expires_at` in the past is
still returned, and the dispatcher serves the sender (here: the help
text) instead of the login prompt. -/
theorem session_gate_ignores_expiry :
    expiredSession.isActive = true ∧ expiredSession.expiresAt < 86401 ∧
    getActiveSession stExpired.sessions BotType.invoice "pa" = some expiredSession ∧
    (handleInvoiceMessage stExpired 86401 verifyEq "pa" "help").reply = some invoiceHelpMsg ∧
    invoiceHelpMsg ≠ loginPromptMsg := by decide

/-- C4 counterexample: the claim says parsing lower-cases only the
leading command word and preserves argument case, so that
"add Pencils 100 5.0" yields item_name "Pencils".  The inventory parser
lower-cases the whole message before tokenizing, so the item name comes
out as "pencils". -/
theorem inventory_args_lowercased_cx :
    (parseInventoryCommand "add Pencils 100 5.0").itemName = some "pencils" ∧
    some "pencils" ≠ some "Pencils" := by decide

/-- C4 (amended): the inventory grammar lower-cases the entire message,
so "add Pencils 100 5.0" parses to item_name "pencils" (not "Pencils"),
quantity 100 and price 5.0, while "add Pencils" is rejected with the
error naming the add format; the invoice grammar re-cases its arguments
with title(), mapping "natraj pencils" to "Natraj Pencils". -/
theorem parser_recases_arguments :
    (parseInventoryCommand "add Pencils 100 5.0").command = CommandType.addItem ∧
    (parseInventoryCommand "add Pencils 100 5.0").itemName = some "pencils" ∧
    (parseInventoryCommand "add Pencils 100 5.0").quantity = some 100 ∧
    (parseInventoryCommand "add Pencils 100 5.0").price = some 5 ∧
    (parseInventoryCommand "add Pencils").error =
      some "Invalid format. Use: add item_name quantity price" ∧
    (parseInvoiceMessage "Raghav: natraj pencils: 2").itemName = some "Natraj Pencils" ∧
    (parseInvoiceMessage "Raghav: natraj pencils: 2").customerName = some "Raghav" ∧
    (parseInvoiceMessage "Raghav: natraj pencils: 2").quantity = some 2 := by
  refine ⟨by decide, by decide, by decide, ?_, by decide, by decide, by decide, by decide⟩
  show some (decimalToRat ['5'] ['0']) = some 5
  exact congrArg some decimalToRat_five_zero

/-- C5 counterexample: the claim says the bare success reply succeeds
exactly when the bound sale is pending.  Here sale 1 is pending and bound
to phone `pb`, but it is owned by user 1 while the replying session
belongs to user 2: the handler answers with the combined invalid-sale
error and changes nothing. -/
theorem confirm_foreign_owner_cx :
    saleA.status = SaleStatus.pending ∧
    lookupPending stForeignPending.pendingSales "pb" = some 1 ∧
    (handleRetailerSuccess stForeignPending userBina "pb").reply = invalidSaleMsg ∧
    (handleRetailerSuccess stForeignPending userBina "pb").state = stForeignPending ∧
    invalidSaleMsg ≠ saleConfirmedMsg 1 "Cust A" 15 := by decide

/-- C5 (amended): the bare success reply succeeds exactly when the bound
sale exists, is owned by the replying user, and is pending; a missing or
foreign-owned sale and an already-resolved sale both produce the same
combined invalid-or-already-processed reply, and on either failure the
whole state (sale statuses and item quantities included) is unchanged. -/
theorem confirm_exactly_on_owned_pending
    (st : BotState) (user : User) (phone : String) (sid : Nat)
    (hb : lookupPending st.pendingSales phone = some sid) :
    (∀ sale, findSaleOwned st.sales sid user.id = some sale →
        sale.status = SaleStatus.pending →
        (handleRetailerSuccess st user phone).reply =
          saleConfirmedMsg sale.id sale.customerName sale.totalAmount ∧
        findSaleOwned (handleRetailerSuccess st user phone).state.sales sid user.id =
          some { sale with status := SaleStatus.success }) ∧
    (∀ sale, findSaleOwned st.sales sid user.id = some sale →
        sale.status ≠ SaleStatus.pending →
        (handleRetailerSuccess st user phone).reply = invalidSaleMsg ∧
        (handleRetailerSuccess st user phone).state = st) ∧
    (findSaleOwned st.sales sid user.id = none →
        (handleRetailerSuccess st user phone).reply = invalidSaleMsg ∧
        (handleRetailerSuccess st user phone).state = st) := by
  unfold handleRetailerSuccess
  simp only [hb]
  refine ⟨?_, ?_, ?_⟩
  · intro sale hs hp
    simp only [hs, hp, ne_eq, not_true_eq_false, if_false, ite_false]
    refine ⟨trivial, ?_⟩
    unfold findSaleOwned at hs ⊢
    exact find?_updateFirst _ _ _ _ hs (by simpa using List.find?_some hs)
  · intro sale hs hp
    simp only [hs, ne_eq, hp, not_false_eq_true, if_true, ite_true]
    exact ⟨trivial, trivial⟩
  · intro h
    simp only [h]
    exact ⟨trivial, trivial⟩

/-- C5 witness: confirming an owned pending sale yields the confirmation
reply and marks the sale successful. -/
theorem confirm_exactly_on_owned_pending_witness :
    (handleRetailerSuccess stOwnedPending userAsha "pa").reply =
      saleConfirmedMsg saleA.id saleA.customerName saleA.totalAmount ∧
    findSaleOwned (handleRetailerSuccess stOwnedPending userAsha "pa").state.sales
        1 userAsha.id = some { saleA with status := SaleStatus.success } :=
  (confirm_exactly_on_owned_pending stOwnedPending userAsha "pa" 1 (by decide)).1
    saleA (by decide) (by decide)

/-- C6: the claim says a successful login creates one session carrying a
random opaque token.  Evaluating the handler at the failing input shows
the rest of the claim holds — the prior active session for the
(phone, persona) key is deactivated, exactly one new active session
exists afterwards, its expiry is 24 hours (86400 s) from now, and a
failed credential check changes nothing — but the inserted session
carries no token at all: the `WhatsAppSession` constructor is called
without `session_token`, although the model declares that column
NOT NULL. -/
theorem login_rotates_sessions_without_token :
    (handleLogin stLoginFixture 100 verifyEq BotType.invoice "pa"
        (parseInvoiceMessage "login 1 pw")).state.sessions =
      [{ priorSession with isActive := false }, newSessionFixture] ∧
    newSessionFixture.sessionToken = none ∧
    newSessionFixture.expiresAt = 100 + 86400 ∧
    ((handleLogin stLoginFixture 100 verifyEq BotType.invoice "pa"
        (parseInvoiceMessage "login 1 pw")).state.sessions.filter
      (fun s => s.whatsappNumber == "pa" && s.botType == BotType.invoice &&
        s.isActive)).length = 1 ∧
    (handleLogin stLoginFixture 100 verifyEq BotType.invoice "pa"
        (parseInvoiceMessage "login 1 wrong")).state = stLoginFixture ∧
    (handleLogin stLoginFixture 100 verifyEq BotType.invoice "pa"
        (parseInvoiceMessage "login 1 wrong")).reply = invalidCredsMsg := by decide

/-- C7 counterexample: the claim says item resolution succeeds exactly
when an active item name equals the requested name case-insensitively.
The lookup uses `ilike` with surrounding wildcards: the request "enc"
resolves to the item "Pencils" although the two names are not equal under
any casing. -/
theorem item_match_substring_cx :
    findItem [itemPencils] "enc" = some itemPencils ∧
    pyLower itemPencils.name ≠ pyLower "enc" := by decide

/-- C7 (amended): item resolution (shared by the invoice request and the
stock-update lookup) succeeds exactly when some active item name matches
the pattern `%name%` under case-insensitive SQL LIKE semantics — the
requested name is embedded raw, so a `_` in it matches any one character
and a `%` any run; in particular a case-insensitive substring of an
active name resolves, an exact case-insensitive match always resolves,
and only when no active item matches does the lookup fail. -/
theorem item_resolution_like_semantics (items : List Item) (nm : String) :
    ((findItem items nm).isSome = true ↔
      ∃ i, i ∈ items ∧ ilikeContains i.name nm = true ∧ i.isActive = true) ∧
    (∀ i, i ∈ items → i.isActive = true → pyLower i.name = pyLower nm →
      (findItem items nm).isSome = true) ∧
    ilikeContains "abc" "a_c" = true ∧
    ilikeContains "abc" "a%c" = true ∧
    ilikeContains "abc" "b" = true ∧
    ilikeContains "abc" "d" = false := by
  have hiff : (findItem items nm).isSome = true ↔
      ∃ i, i ∈ items ∧ ilikeContains i.name nm = true ∧ i.isActive = true := by
    unfold findItem
    simp [List.find?_isSome, Bool.and_eq_true]
  refine ⟨hiff, fun i hi hact heq => hiff.mpr ⟨i, hi, ?_, hact⟩,
    by decide, by decide, by decide, by decide⟩
  exact ilikeContains_of_eq i.name nm heq

/-- C7 witness: an exact case-insensitive name match resolves. -/
theorem item_resolution_like_semantics_witness :
    (findItem [itemPencils] "pencils").isSome = true :=
  (item_resolution_like_semantics [itemPencils] "pencils").2.1 itemPencils
    (by decide) (by decide) (by decide)

/-- C8: when the requested quantity exceeds the resolved item stock, the
invoice-request handler replies with the insufficient-stock message
naming the available and requested quantities and leaves the state —
in particular the sales table — unchanged. -/
theorem insufficient_stock_creates_no_sale
    (st : BotState) (user : User) (phone : String) (p : ParsedMsg) (item : Item)
    (hp : p.error = none)
    (hi : findItem st.items (p.itemName.getD "") = some item)
    (hq : item.quantity < p.quantity.getD 0) :
    (handleInvoiceRequest st user phone p).reply =
      insufficientStockMsg item.name item.quantity (p.quantity.getD 0) ∧
    (handleInvoiceRequest st user phone p).state = st := by
  unfold handleInvoiceRequest
  simp only [hp, hi, if_pos hq]
  exact ⟨trivial, trivial⟩

/-- C8 witness: requesting five pencils when three are in stock gives the
available-3-requested-5 reply and creates no sale. -/
theorem insufficient_stock_creates_no_sale_witness :
    (handleInvoiceRequest stTwoPending userAsha "pa"
        (parseInvoiceMessage "Raghav: Pencils: 5")).reply =
      insufficientStockMsg itemPencils.name itemPencils.quantity
        ((parseInvoiceMessage "Raghav: Pencils: 5").quantity.getD 0) ∧
    (handleInvoiceRequest stTwoPending userAsha "pa"
        (parseInvoiceMessage "Raghav: Pencils: 5")).state = stTwoPending :=
  insufficient_stock_creates_no_sale stTwoPending userAsha "pa"
    (parseInvoiceMessage "Raghav: Pencils: 5") itemPencils
    (by decide) (by decide) (by decide)

/-- C9: the reject handler (bare fail/failed reply) never touches the
items table in any of its branches, and on an owned pending sale it
transitions the sale to failed and sends the cancellation reply. -/
theorem reject_never_touches_items (st : BotState) (user : User) (phone : String) :
    (handleRetailerFail st user phone).state.items = st.items ∧
    (∀ sid sale, lookupPending st.pendingSales phone = some sid →
      findSaleOwned st.sales sid user.id = some sale →
      sale.status = SaleStatus.pending →
      findSaleOwned (handleRetailerFail st user phone).state.sales sid user.id =
        some { sale with status := SaleStatus.failed } ∧
      (handleRetailerFail st user phone).reply =
        saleCancelledMsg sale.id sale.customerName sale.totalAmount) := by
  constructor
  · unfold handleRetailerFail
    cases h : lookupPending st.pendingSales phone with
    | none => rfl
    | some sid =>
        simp only []
        cases h2 : findSaleOwned st.sales sid user.id with
        | none => rfl
        | some sale =>
            simp only [h2]
            by_cases h3 : sale.status = SaleStatus.pending
            · simp only [h3, ne_eq, not_true_eq_false, if_false, ite_false]
            · simp only [ne_eq, h3, not_false_eq_true, if_true, ite_true]
  · intro sid sale hb hs hpend
    unfold handleRetailerFail
    simp only [hb, hs, hpend, ne_eq, not_true_eq_false, if_false, ite_false]
    refine ⟨?_, trivial⟩
    unfold findSaleOwned at hs ⊢
    exact find?_updateFirst _ _ _ _ hs (by simpa using List.find?_some hs)

/-- C9 witness: rejecting the owned pending sale leaves the item list
untouched, marks the sale failed, and sends the cancellation reply. -/
theorem reject_never_touches_items_witness :
    (handleRetailerFail stOwnedPending userAsha "pa").state.items = stOwnedPending.items ∧
    findSaleOwned (handleRetailerFail stOwnedPending userAsha "pa").state.sales
        1 userAsha.id = some { saleA with status := SaleStatus.failed } ∧
    (handleRetailerFail stOwnedPending userAsha "pa").reply =
      saleCancelledMsg saleA.id saleA.customerName saleA.totalAmount :=
  ⟨(reject_never_touches_items stOwnedPending userAsha "pa").1,
   ((reject_never_touches_items stOwnedPending userAsha "pa").2 1 saleA
      (by decide) (by decide) (by decide)).1,
   ((reject_never_touches_items stOwnedPending userAsha "pa").2 1 saleA
      (by decide) (by decide) (by decide)).2⟩

/-- C10: when the bound sale is missing, foreign-owned, or no longer
pending, both the success and the fail handler reply with the invalid
message and leave the whole state — the binding included — in place, so a
subsequent reply resolves to the same sale id; the binding is removed by
logout, and by a reply that does complete a pending transition. -/
theorem invalid_reply_leaves_binding
    (st : BotState) (user : User) (phone : String) (sid : Nat)
    (hb : lookupPending st.pendingSales phone = some sid)
    (hinv : ∀ sale, findSaleOwned st.sales sid user.id = some sale →
      sale.status ≠ SaleStatus.pending) :
    ((handleRetailerSuccess st user phone).reply = invalidSaleMsg ∧
     (handleRetailerSuccess st user phone).state = st ∧
     lookupPending (handleRetailerSuccess st user phone).state.pendingSales phone =
       some sid) ∧
    ((handleRetailerFail st user phone).reply = invalidSaleMsg ∧
     (handleRetailerFail st user phone).state = st ∧
     lookupPending (handleRetailerFail st user phone).state.pendingSales phone =
       some sid) ∧
    (∀ sess, lookupPending (handleInvoiceLogout st phone sess).state.pendingSales
       phone = none) ∧
    (∀ st2 : BotState, ∀ u2 : User, ∀ ph2 : String, ∀ sid2 : Nat, ∀ sale2 : Sale,
      lookupPending st2.pendingSales ph2 = some sid2 →
      findSaleOwned st2.sales sid2 u2.id = some sale2 →
      sale2.status = SaleStatus.pending →
      lookupPending (handleRetailerSuccess st2 u2 ph2).state.pendingSales ph2 = none) := by
  have hsucc : (handleRetailerSuccess st user phone).reply = invalidSaleMsg ∧
      (handleRetailerSuccess st user phone).state = st := by
    unfold handleRetailerSuccess
    simp only [hb]
    cases h2 : findSaleOwned st.sales sid user.id with
    | none => exact ⟨rfl, rfl⟩
    | some sale =>
        simp only [h2, ne_eq, hinv sale h2, not_false_eq_true, if_true, ite_true]
        exact ⟨trivial, trivial⟩
  have hfail : (handleRetailerFail st user phone).reply = invalidSaleMsg ∧
      (handleRetailerFail st user phone).state = st := by
    unfold handleRetailerFail
    simp only [hb]
    cases h2 : findSaleOwned st.sales sid user.id with
    | none => exact ⟨rfl, rfl⟩
    | some sale =>
        simp only [h2, ne_eq, hinv sale h2, not_false_eq_true, if_true, ite_true]
        exact ⟨trivial, trivial⟩
  refine ⟨⟨hsucc.1, hsucc.2, ?_⟩, ⟨hfail.1, hfail.2, ?_⟩, ?_, ?_⟩
  · rw [hsucc.2]; exact hb
  · rw [hfail.2]; exact hb
  · intro sess
    unfold handleInvoiceLogout
    exact lookupPending_erase _ _
  · intro st2 u2 ph2 sid2 sale2 hb2 hs2 hp2
    unfold handleRetailerSuccess
    simp only [hb2, hs2, hp2, ne_eq, not_true_eq_false, if_false, ite_false]
    exact lookupPending_erase _ _

/-- C10 witness: a success reply on a binding to an already-resolved sale
is answered with the invalid message while the binding stays bound to the
same sale id. -/
theorem invalid_reply_leaves_binding_witness :
    (handleRetailerSuccess stStaleBinding userAsha "pa").reply = invalidSaleMsg ∧
    (handleRetailerSuccess stStaleBinding userAsha "pa").state = stStaleBinding ∧
    lookupPending (handleRetailerSuccess stStaleBinding userAsha "pa").state.pendingSales
      "pa" = some 1 :=
  (invalid_reply_leaves_binding stStaleBinding userAsha "pa" 1 (by decide)
    (fun sale h => by
      have h0 : (some saleResolved : Option Sale) = some sale := h
      injection h0 with h1
      rw [← h1]
      decide)).1

end RetailerBot
